import Mathlib

/-!
Shallow embedding of the change-detection core of `mwc.py`
(MailWebsiteChanges).  The model covers the per-session site loop of
`pollWebsites` (lines 183-248), the helpers `diff_and_store`,
`storeHashes` and `runParsers`-level observations, with the external
collaborators (the `hashlib.md5(...).hexdigest()` fingerprint of the
encoded content, `difflib.unified_diff` joined with newlines, and the
SMTP transport used by `sendmail`) abstracted as function parameters.
RSS-feed generation and logging are pure output channels none of the
verified properties touch and are omitted.
-/

deriving instance DecidableEq for Except

namespace MWC

/-- A content item as consumed by `pollWebsites`: the attributes the loop
reads from the objects produced by the parser pipeline. -/
structure Content where
  content : String
  encoding : String
  title : Option String
  contenttype : String
  uri : Option String
  receivers : Option (List String)
  deriving DecidableEq

/-- The observable arguments of one `sendmail` call. -/
structure Mail where
  receivers : List String
  subject : String
  content : String
  sendAsHtml : Bool
  link : Option String
  encoding : Option String
  deriving DecidableEq

/-- The configuration fields `pollWebsites` consults. -/
structure Config where
  enableMailNotifications : Bool
  maxMailsPerSession : Int
  receiver : String
  deriving DecidableEq

/-- One configured site together with its persisted state at the start of
the run: `storedHashes` is the line list read by `getStoredHashes`,
`cache` the optional `.cache` snapshot file, and `parserResult` the
outcome of `runParsers(site['parsers'])` (an exception or an item list). -/
structure Site where
  name : String
  receiver : Option String
  diff : Bool
  keepHashes : Bool
  postRun : Bool
  parserResult : Except String (List Content)
  storedHashes : List String
  cache : Option String
  deriving DecidableEq

/-- Session-wide mutable state: the `mailsSent` counter and the log of
successfully dispatched mails. -/
structure Session where
  mailsSent : Nat
  sentMails : List Mail
  deriving DecidableEq

/-- In-memory state threaded through the `for content in contentList` loop. -/
structure LoopState where
  mailsSent : Nat
  sentMails : List Mail
  sessionHashes : List String
  changedContents : List Content
  cache : Option String
  deriving DecidableEq

/-- What one site's processing left behind: the final `.hash` file lines
(unchanged if the file was not rewritten), whether `storeHashes` ran, the
final `.cache` snapshot, the `changedContents` list, and the argument of
the `runParsers(site['postRun'], ...)` call if it happened. -/
structure SiteOutcome where
  storedHashes : List String
  storeWritten : Bool
  cache : Option String
  changedContents : List Content
  postRunArg : Option (List Content)
  deriving DecidableEq

/-- Result of the whole site loop: per-site outcomes, final session state,
and whether an uncaught exception (a failed `sendmail`) aborted the loop. -/
structure PollResult where
  outcomes : List SiteOutcome
  session : Session
  aborted : Bool
  deriving DecidableEq

/-- The sentinel body used when diff mode has nothing to diff. -/
def noPreviousVersion : String := "(no previous version, nothing to diff)"

/-- Byte content written by `storeHashes`: one line per hash. -/
def storeHashes (contentHashes : List String) : String :=
  String.join (contentHashes.map (fun h => h ++ "\n"))

/-- `diff_and_store`: given the current snapshot file content (`none` when
the file does not exist) and the new content, return the value the Python
function returns (`none` on first run, otherwise the joined unified diff)
together with the new snapshot file content, which is always overwritten
with `new_content`. -/
def diff_and_store (unified_diff : String → String → String)
    (cache : Option String) (new_content : String) :
    Option String × Option String :=
  match cache with
  | some old_content => (some (unified_diff old_content new_content), some new_content)
  | none => (none, some new_content)

/-- The guard on line 210: `(not config.enableMailNotifications) or
config.maxMailsPerSession == -1 or mailsSent < config.maxMailsPerSession`. -/
def budgetAllows (cfg : Config) (mailsSent : Nat) : Bool :=
  !cfg.enableMailNotifications || cfg.maxMailsPerSession == -1 ||
    decide ((mailsSent : Int) < cfg.maxMailsPerSession)

/-- The guard on line 196 (warning-mail path): `config.maxMailsPerSession
== -1 or mailsSent < config.maxMailsPerSession`. -/
def warnBudgetAllows (cfg : Config) (mailsSent : Nat) : Bool :=
  cfg.maxMailsPerSession == -1 ||
    decide ((mailsSent : Int) < cfg.maxMailsPerSession)

/-- The fingerprint of an item: `hashlib.md5(content.content.encode(
content.encoding)).hexdigest()`, with the encode-and-digest pipeline
abstracted as `md5hex`. -/
def contenthashOf (md5hex : String → String → String) (c : Content) : String :=
  md5hex c.content c.encoding

/-- The body displayed (and mailed) for a new item in diff mode:
the truthiness test `if diff:` on the `diff_and_store` return value, with
the sentinel for `None` and for the empty string. -/
def diffDisplay (unified_diff : String → String → String)
    (cache : Option String) (new_content : String) : String :=
  match (diff_and_store unified_diff cache new_content).1 with
  | some d => if d = "" then noPreviousVersion else d
  | none => noPreviousVersion

/-- Evolution of the snapshot file over one item loop: each item whose
fingerprint is absent from the prior store and that is processed in diff
mode overwrites the snapshot with its content; all other items leave it
alone. -/
def cacheAfter (md5hex : String → String → String) (diff_mode : Bool)
    (fileHashes : List String) (l : List Content) (cache : Option String) :
    Option String :=
  l.foldl
    (fun acc c =>
      if !(fileHashes.contains (contenthashOf md5hex c)) && diff_mode then
        some c.content
      else acc)
    cache

section

variable (md5hex : String → String → String)
variable (unified_diff : String → String → String)
variable (transportOk : Mail → Bool)
variable (cfg : Config)

/-- One iteration of the `for content in contentList` loop
(mwc.py lines 206-239).  `Except.error` models an exception raised by
`sendmail` (the SMTP transport failing); the carried state records the
side effects already performed (in diff mode the snapshot file was
already rewritten before the send). -/
def pollItem (siteName : String) (receiver : String) (diff_mode : Bool)
    (fileHashes : List String) (st : LoopState) (content : Content) :
    Except LoopState LoopState :=
  let contenthash := md5hex content.content content.encoding
  if fileHashes.contains contenthash then
    Except.ok { st with sessionHashes := st.sessionHashes ++ [contenthash] }
  else if budgetAllows cfg st.mailsSent then
    let sessionHashes := st.sessionHashes ++ [contenthash]
    let changedContents := st.changedContents ++ [content]
    let subject := "[" ++ siteName ++ "] " ++ content.title.getD "Update available"
    let display_content :=
      if diff_mode then diffDisplay unified_diff st.cache content.content
      else content.content
    let cache2 :=
      if diff_mode then (diff_and_store unified_diff st.cache content.content).2
      else st.cache
    if cfg.enableMailNotifications && decide (fileHashes.length > 0) then
      let mail : Mail :=
        { receivers := receiver :: content.receivers.getD [],
          subject := subject, content := display_content,
          sendAsHtml := if diff_mode then false else content.contenttype == "html",
          link := content.uri, encoding := some content.encoding }
      if transportOk mail then
        Except.ok { mailsSent := st.mailsSent + 1, sentMails := st.sentMails ++ [mail],
                    sessionHashes := sessionHashes, changedContents := changedContents,
                    cache := cache2 }
      else
        Except.error { st with sessionHashes := sessionHashes,
                               changedContents := changedContents, cache := cache2 }
    else
      Except.ok { st with sessionHashes := sessionHashes,
                          changedContents := changedContents, cache := cache2 }
  else
    Except.ok st

/-- The full `for content in contentList` loop, propagating a `sendmail`
exception. -/
def pollItems (siteName : String) (receiver : String) (diff_mode : Bool)
    (fileHashes : List String) (contents : List Content) (st : LoopState) :
    Except LoopState LoopState :=
  match contents with
  | [] => Except.ok st
  | c :: rest =>
    match pollItem md5hex unified_diff transportOk cfg siteName receiver
        diff_mode fileHashes st c with
    | Except.ok st2 =>
      pollItems siteName receiver diff_mode fileHashes rest st2
    | Except.error st2 => Except.error st2

/-- Processing of one site (the body of the `for site in config.sites`
loop, lines 184-248): the warning path when `runParsers` raised, otherwise
the item loop followed by the `postRun` call and the conditional
`storeHashes`.  `Except.error` again models an uncaught `sendmail`
exception, with the session state and this site's persisted outcome at
the moment it was raised. -/
def pollSite (s : Site) (sess : Session) :
    Except (Session × SiteOutcome) (Session × SiteOutcome) :=
  let receiver := s.receiver.getD cfg.receiver
  match s.parserResult with
  | Except.error e =>
    let subject := "[" ++ s.name ++ "] WARNING"
    let out : SiteOutcome :=
      { storedHashes := s.storedHashes, storeWritten := false, cache := s.cache,
        changedContents := [], postRunArg := none }
    if cfg.enableMailNotifications then
      if warnBudgetAllows cfg sess.mailsSent then
        let mail : Mail :=
          { receivers := [receiver], subject := subject, content := e,
            sendAsHtml := false, link := none, encoding := none }
        if transportOk mail then
          Except.ok ({ mailsSent := sess.mailsSent + 1,
                       sentMails := sess.sentMails ++ [mail] }, out)
        else
          Except.error (sess, out)
      else
        Except.ok (sess, out)
    else
      Except.ok (sess, out)
  | Except.ok contentList =>
    let st0 : LoopState :=
      { mailsSent := sess.mailsSent, sentMails := sess.sentMails,
        sessionHashes := [], changedContents := [], cache := s.cache }
    match pollItems md5hex unified_diff transportOk cfg s.name receiver s.diff
        s.storedHashes contentList st0 with
    | Except.error st =>
      Except.error ({ mailsSent := st.mailsSent, sentMails := st.sentMails },
        { storedHashes := s.storedHashes, storeWritten := false, cache := st.cache,
          changedContents := st.changedContents, postRunArg := none })
    | Except.ok st =>
      let postRunArg := if s.postRun then some st.changedContents else none
      if decide (st.changedContents.length > 0) then
        let sessionHashes :=
          if s.keepHashes then st.sessionHashes ++ s.storedHashes else st.sessionHashes
        Except.ok ({ mailsSent := st.mailsSent, sentMails := st.sentMails },
          { storedHashes := sessionHashes, storeWritten := true, cache := st.cache,
            changedContents := st.changedContents, postRunArg := postRunArg })
      else
        Except.ok ({ mailsSent := st.mailsSent, sentMails := st.sentMails },
          { storedHashes := s.storedHashes, storeWritten := false, cache := st.cache,
            changedContents := st.changedContents, postRunArg := postRunArg })

/-- The persisted state of a site that was never reached (the loop aborted
before it): both files keep their previous content. -/
def untouchedOutcome (s : Site) : SiteOutcome :=
  { storedHashes := s.storedHashes, storeWritten := false, cache := s.cache,
    changedContents := [], postRunArg := none }

/-- The site loop of `pollWebsites`.  A `sendmail` exception is not caught
inside the loop, so it aborts the remaining sites; their persisted state
is reported untouched. -/
def pollWebsites (sites : List Site) (sess : Session) : PollResult :=
  match sites with
  | [] => { outcomes := [], session := sess, aborted := false }
  | s :: rest =>
    match pollSite md5hex unified_diff transportOk cfg s sess with
    | Except.ok (sess2, out) =>
      let r := pollWebsites rest sess2
      { r with outcomes := out :: r.outcomes }
    | Except.error (sess2, out) =>
      { outcomes := out :: rest.map untouchedOutcome, session := sess2,
        aborted := true }

/-- Number of items of a site whose fingerprint is absent from the prior
stored set (the spec's notion of a "new" item). -/
def newItemCount (s : Site) : Nat :=
  match s.parserResult with
  | Except.ok l =>
    (l.filter (fun c => !(s.storedHashes.contains (contenthashOf md5hex c)))).length
  | Except.error _ => 0

/-- Total number of new items across all sites of a session. -/
def totalNewItems (sites : List Site) : Nat :=
  (sites.map (newItemCount md5hex)).sum

end

/-! Concrete instances of the abstracted collaborators and small concrete
inputs, used to evaluate the model at specific points. -/

/-- A concrete fingerprint function: the content itself. -/
def hashId : String → String → String := fun c _ => c

/-- A concrete unified-diff function returning a fixed marker. -/
def ud0 : String → String → String := fun _ _ => "DIFF"

/-- A transport on which every `sendmail` succeeds. -/
def sendOk : Mail → Bool := fun _ => true

/-- A transport on which every `sendmail` raises. -/
def sendFail : Mail → Bool := fun _ => false

/-- Fresh session state: no mail sent yet. -/
def sess0 : Session := { mailsSent := 0, sentMails := [] }

/-- Mail notifications on, at most 0 mails per session. -/
def cfgM0 : Config :=
  { enableMailNotifications := true, maxMailsPerSession := 0, receiver := "r" }

/-- Mail notifications on, at most 1 mail per session. -/
def cfgM1 : Config :=
  { enableMailNotifications := true, maxMailsPerSession := 1, receiver := "r" }

/-- Mail notifications on, unlimited budget. -/
def cfgUnl : Config :=
  { enableMailNotifications := true, maxMailsPerSession := -1, receiver := "r" }

/-- Mail notifications disabled. -/
def cfgOff : Config :=
  { enableMailNotifications := false, maxMailsPerSession := -1, receiver := "r" }

/-- An html item with content `"X"`. -/
def itemX : Content :=
  { content := "X", encoding := "utf-8", title := none, contenttype := "html",
    uri := none, receivers := none }

/-- A text item with content `"A"`. -/
def itemA : Content :=
  { content := "A", encoding := "utf-8", title := none, contenttype := "text",
    uri := none, receivers := none }

/-- A text item with content `"B"`. -/
def itemB : Content :=
  { content := "B", encoding := "utf-8", title := none, contenttype := "text",
    uri := none, receivers := none }

/-- Observation: the per-site persisted outcome, whether the site run
completed or raised. -/
def outcomeOf (r : Except (Session × SiteOutcome) (Session × SiteOutcome)) :
    SiteOutcome :=
  match r with
  | Except.ok p => p.2
  | Except.error p => p.2

/-- Observation: the session state after a site run, whether it completed
or raised. -/
def sessionOf (r : Except (Session × SiteOutcome) (Session × SiteOutcome)) :
    Session :=
  match r with
  | Except.ok p => p.1
  | Except.error p => p.1

/-- Observation: the snapshot file after one item step, whether the step
completed or raised. -/
def cacheOfResult (r : Except LoopState LoopState) : Option String :=
  match r with
  | Except.ok st => st.cache
  | Except.error st => st.cache

/-- Site with one new html item `"X"` and a non-empty prior store. -/
def siteX_h0 : Site :=
  { name := "s", receiver := none, diff := false, keepHashes := false,
    postRun := true, parserResult := Except.ok [itemX],
    storedHashes := ["h0"], cache := none }

/-- Expected outcome of `siteX_h0` under an exhausted budget: everything
untouched, the post-run pipeline invoked on the empty list. -/
def outX_h0_skipped : SiteOutcome :=
  { storedHashes := ["h0"], storeWritten := false, cache := none,
    changedContents := [], postRunArg := some [] }

/-- Site with two new items `"A"`, `"B"` and non-empty prior store. -/
def siteAB_h : Site :=
  { name := "s", receiver := none, diff := false, keepHashes := false,
    postRun := false, parserResult := Except.ok [itemA, itemB],
    storedHashes := ["h"], cache := none }

/-- Site with one item `"A"` whose fingerprint is already stored. -/
def siteA_a : Site :=
  { name := "s", receiver := none, diff := false, keepHashes := false,
    postRun := false, parserResult := Except.ok [itemA],
    storedHashes := ["A"], cache := none }

/-- Site with one new item `"A"` and prior store `["h"]`. -/
def siteA_h : Site :=
  { name := "s", receiver := none, diff := false, keepHashes := false,
    postRun := false, parserResult := Except.ok [itemA],
    storedHashes := ["h"], cache := none }

/-- Diff-mode site whose only item is already stored, with an existing
snapshot `"old"`. -/
def siteDiffOld : Site :=
  { name := "s", receiver := none, diff := true, keepHashes := false,
    postRun := false, parserResult := Except.ok [itemA],
    storedHashes := ["A"], cache := some "old" }

/-- Site producing the same item twice, with an empty prior store. -/
def siteDup : Site :=
  { name := "s", receiver := none, diff := false, keepHashes := false,
    postRun := false, parserResult := Except.ok [itemA, itemA],
    storedHashes := [], cache := none }

/-- Site on its first run: empty prior store, one item. -/
def siteFresh : Site :=
  { name := "s", receiver := none, diff := false, keepHashes := false,
    postRun := false, parserResult := Except.ok [itemA],
    storedHashes := [], cache := none }

/-- Outcome of a first run of `siteA_h` without notifications: item `"A"`
is new, the store is rewritten to its fingerprint. -/
def outA_first : SiteOutcome :=
  { storedHashes := ["A"], storeWritten := true, cache := none,
    changedContents := [itemA], postRunArg := none }

/-- Outcome of the immediate second run: nothing new, store untouched. -/
def outA_second : SiteOutcome :=
  { storedHashes := ["A"], storeWritten := false, cache := none,
    changedContents := [], postRunArg := none }

/-- Site with a configured post-run pipeline whose only item is already
stored. -/
def sitePostOld : Site :=
  { name := "s", receiver := none, diff := false, keepHashes := true,
    postRun := true, parserResult := Except.ok [itemA],
    storedHashes := ["A"], cache := none }

/-- Outcome of `sitePostOld`: nothing changed, post-run invoked on `[]`. -/
def outPost : SiteOutcome :=
  { storedHashes := ["A"], storeWritten := false, cache := none,
    changedContents := [], postRunArg := some [] }

/-- Loop state holding an existing snapshot `"old"`. -/
def loopOld : LoopState :=
  { mailsSent := 0, sentMails := [], sessionHashes := [],
    changedContents := [], cache := some "old" }

/-- A text item with content `"C"`. -/
def itemC : Content :=
  { content := "C", encoding := "utf-8", title := none, contenttype := "text",
    uri := none, receivers := none }

/-- Site with prior store `["A", "B"]` whose run produces only the
fingerprint `"C"`, with `keepHashes` set. -/
def siteC_AB : Site :=
  { name := "s", receiver := none, diff := false, keepHashes := true,
    postRun := false, parserResult := Except.ok [itemC],
    storedHashes := ["A", "B"], cache := none }

/-- State of `siteA_h` at the moment its first dispatch raises: the item
was recorded in memory but nothing was persisted. -/
def outAbort : SiteOutcome :=
  { storedHashes := ["h"], storeWritten := false, cache := none,
    changedContents := [itemA], postRunArg := none }

/-- Two-site session: first site has a new item and prior history (so it
dispatches), second site is on its first run. -/
def sitesPair : List Site := [siteA_h, siteFresh]

section

variable (md5hex : String → String → String)
variable (unified_diff : String → String → String)
variable (transportOk : Mail → Bool)
variable (cfg : Config)

/-- An item whose fingerprint is already stored only appends its hash to
`sessionHashes`. -/
lemma pollItem_unchanged (siteName receiver : String) (diff_mode : Bool)
    (fileHashes : List String) (st : LoopState) (c : Content)
    (hc : fileHashes.contains (contenthashOf md5hex c) = true) :
    pollItem md5hex unified_diff transportOk cfg siteName receiver diff_mode
        fileHashes st c =
      Except.ok { st with
        sessionHashes := st.sessionHashes ++ [contenthashOf md5hex c] } := by
  simp [pollItem, contenthashOf] at hc ⊢
  simp [hc]

/-- If every item of the list is already stored, the item loop only
appends all the hashes to `sessionHashes` and nothing else happens. -/
lemma pollItems_allUnchanged (siteName receiver : String) (diff_mode : Bool)
    (fileHashes : List String) (l : List Content) (st : LoopState)
    (hall : ∀ c ∈ l, fileHashes.contains (contenthashOf md5hex c) = true) :
    pollItems md5hex unified_diff transportOk cfg siteName receiver diff_mode
        fileHashes l st =
      Except.ok { st with
        sessionHashes := st.sessionHashes ++ l.map (contenthashOf md5hex) } := by
  induction l generalizing st with
  | nil => simp [pollItems]
  | cons c rest ih =>
    rw [pollItems,
      pollItem_unchanged md5hex unified_diff transportOk cfg siteName receiver
        diff_mode fileHashes st c (hall c (List.mem_cons_self c rest))]
    dsimp only
    rw [ih _ (fun x hx => hall x (List.mem_cons_of_mem _ hx))]
    simp

/-- A new item processed while the budget admits it but the mail gate
(`config.enableMailNotifications and len(fileHashes) > 0`) is off is
recorded and, in diff mode, rewrites the snapshot — but sends nothing. -/
lemma pollItem_new_noSend (siteName receiver : String) (diff_mode : Bool)
    (fileHashes : List String) (st : LoopState) (c : Content)
    (hc : fileHashes.contains (contenthashOf md5hex c) = false)
    (hb : budgetAllows cfg st.mailsSent = true)
    (hgate : (cfg.enableMailNotifications && decide (fileHashes.length > 0)) = false) :
    pollItem md5hex unified_diff transportOk cfg siteName receiver diff_mode
        fileHashes st c =
      Except.ok { st with
        sessionHashes := st.sessionHashes ++ [contenthashOf md5hex c],
        changedContents := st.changedContents ++ [c],
        cache := if diff_mode then some c.content else st.cache } := by
  simp [contenthashOf] at hc
  cases hcc : st.cache <;>
    simp [pollItem, hc, hb, hgate, hcc, diff_and_store, contenthashOf]

/-- Characterization of the whole item loop when the mail gate is off:
every item appends its hash to `sessionHashes`, exactly the items with a
fresh fingerprint are appended to `changedContents` (in discovery order),
the snapshot evolves by `cacheAfter`, and the mail state is untouched. -/
lemma pollItems_noSend (siteName receiver : String) (diff_mode : Bool)
    (fileHashes : List String) (l : List Content) (st : LoopState)
    (hgate : (cfg.enableMailNotifications && decide (fileHashes.length > 0)) = false)
    (hbud : budgetAllows cfg st.mailsSent = true) :
    pollItems md5hex unified_diff transportOk cfg siteName receiver diff_mode
        fileHashes l st =
      Except.ok
        { mailsSent := st.mailsSent, sentMails := st.sentMails,
          sessionHashes := st.sessionHashes ++ l.map (contenthashOf md5hex),
          changedContents := st.changedContents ++
            l.filter (fun c => !(fileHashes.contains (contenthashOf md5hex c))),
          cache := cacheAfter md5hex diff_mode fileHashes l st.cache } := by
  induction l generalizing st with
  | nil => simp [pollItems, cacheAfter]
  | cons c rest ih =>
    rw [pollItems]
    by_cases hc : fileHashes.contains (contenthashOf md5hex c) = true
    · rw [pollItem_unchanged md5hex unified_diff transportOk cfg siteName
        receiver diff_mode fileHashes st c hc]
      dsimp only
      refine (ih _ ?_).trans ?_
      · exact hbud
      · have hm : contenthashOf md5hex c ∈ fileHashes := by simpa using hc
        simp [cacheAfter, hm, List.filter_cons]
    · rw [pollItem_new_noSend md5hex unified_diff transportOk cfg siteName
        receiver diff_mode fileHashes st c (Bool.not_eq_true _ ▸ hc) hbud hgate]
      dsimp only
      refine (ih _ ?_).trans ?_
      · exact hbud
      · have hm : contenthashOf md5hex c ∉ fileHashes := by simpa using hc
        simp [cacheAfter, hm, List.filter_cons]

/-- A site all of whose items are already stored leaves everything as it
was: no store rewrite, no snapshot write, no changed item, no mail; the
post-run pipeline, when configured, is still invoked with the empty list. -/
lemma pollSite_allUnchanged (s : Site) (sess : Session) (l : List Content)
    (hp : s.parserResult = Except.ok l)
    (hall : ∀ c ∈ l, s.storedHashes.contains (contenthashOf md5hex c) = true) :
    pollSite md5hex unified_diff transportOk cfg s sess =
      Except.ok (sess,
        { storedHashes := s.storedHashes, storeWritten := false, cache := s.cache,
          changedContents := [],
          postRunArg := if s.postRun then some [] else none }) := by
  unfold pollSite
  rw [hp]
  dsimp only
  rw [pollItems_allUnchanged md5hex unified_diff transportOk cfg s.name
    (s.receiver.getD cfg.receiver) s.diff s.storedHashes l
    { mailsSent := sess.mailsSent, sentMails := sess.sentMails,
      sessionHashes := [], changedContents := [], cache := s.cache } hall]
  simp

/-- Full characterization of one site's processing when the mail gate is
off (mail disabled, or empty prior store) and the budget admits the items:
the changed list is the discovery-ordered sublist of fresh-fingerprint
items, the store is rewritten exactly when that list is non-empty (with
the whole prior list appended under `keepHashes`), and the session mail
state is untouched. -/
lemma pollSite_noSend (s : Site) (sess : Session) (l : List Content)
    (hp : s.parserResult = Except.ok l)
    (hgate : (cfg.enableMailNotifications && decide (s.storedHashes.length > 0)) = false)
    (hbud : budgetAllows cfg sess.mailsSent = true) :
    pollSite md5hex unified_diff transportOk cfg s sess =
      Except.ok (sess,
        { storedHashes :=
            if (l.filter (fun c =>
                !(s.storedHashes.contains (contenthashOf md5hex c)))).length > 0 then
              l.map (contenthashOf md5hex) ++
                (if s.keepHashes then s.storedHashes else [])
            else s.storedHashes,
          storeWritten :=
            decide ((l.filter (fun c =>
              !(s.storedHashes.contains (contenthashOf md5hex c)))).length > 0),
          cache := cacheAfter md5hex s.diff s.storedHashes l s.cache,
          changedContents := l.filter (fun c =>
            !(s.storedHashes.contains (contenthashOf md5hex c))),
          postRunArg :=
            if s.postRun then
              some (l.filter (fun c =>
                !(s.storedHashes.contains (contenthashOf md5hex c))))
            else none }) := by
  unfold pollSite
  rw [hp]
  dsimp only
  rw [pollItems_noSend md5hex unified_diff transportOk cfg s.name
    (s.receiver.getD cfg.receiver) s.diff s.storedHashes l
    { mailsSent := sess.mailsSent, sentMails := sess.sentMails,
      sessionHashes := [], changedContents := [], cache := s.cache } hgate hbud]
  dsimp only
  by_cases hch : (l.filter (fun c =>
      !(s.storedHashes.contains (contenthashOf md5hex c)))).length > 0
  · simp only [List.nil_append, hch, if_true, decide_eq_true_eq]
    cases hkeep : s.keepHashes <;> simp [hch]
  · have hch' : ¬ 0 < (List.filter
      (fun c => !decide (contenthashOf md5hex c ∈ s.storedHashes)) l).length := by
      simpa using hch
    simp [hch']

/-- Claim C1, amended: when the per-session notification budget is
exhausted (mail notifications enabled, `maxMailsPerSession >= 0`, and
`mailsSent` at least that maximum — i.e. the line-210 guard is false), an
item whose fingerprint is absent from the prior stored set is skipped
entirely: the loop state is returned unchanged, so its fingerprint is not
added to the session hashes persisted at the end of the run, the item
does not appear in the changed-items list handed to the post-run Sinks,
and no notification is dispatched. -/
theorem c1_exhausted_budget_drops_new_item (siteName receiver : String)
    (diff_mode : Bool) (fileHashes : List String) (st : LoopState) (c : Content)
    (hc : fileHashes.contains (contenthashOf md5hex c) = false)
    (hb : budgetAllows cfg st.mailsSent = false) :
    pollItem md5hex unified_diff transportOk cfg siteName receiver diff_mode
      fileHashes st c = Except.ok st := by
  simp [contenthashOf] at hc
  simp [pollItem, hc, hb]

end

/-- Witness for C1 at a concrete input: budget 0, one new item, state
returned unchanged. -/
theorem c1_exhausted_budget_drops_new_item_witness :
    pollItem hashId ud0 sendOk cfgM0 "s" "r" false ["h0"]
      { mailsSent := 0, sentMails := [], sessionHashes := [],
          changedContents := [], cache := none } itemX =
      Except.ok { mailsSent := 0, sentMails := [], sessionHashes := [],
                    changedContents := [], cache := none } :=
  c1_exhausted_budget_drops_new_item hashId ud0 sendOk cfgM0 "s" "r" false
    ["h0"] _ itemX (by decide) (by decide)

section

variable (md5hex : String → String → String)
variable (unified_diff : String → String → String)
variable (transportOk : Mail → Bool)
variable (cfg : Config)

/-- Claim C2, amended: (1) for every source, if the fingerprint of every
item produced this run is already in the prior stored set, zero items are
classified new, the store file is not rewritten and keeps its content;
(2) provided run 1 recorded every item fingerprint — guaranteed e.g. when
mail notifications are disabled, so the budget guard cannot drop items —
running the detector twice in succession on identical pipeline output
yields zero new items on the second run and leaves the stored fingerprint
file untouched (hence byte-identical). -/
theorem c2_second_run_is_noop :
    (∀ (s : Site) (sess : Session) (l : List Content),
        s.parserResult = Except.ok l →
        (∀ c ∈ l, s.storedHashes.contains (contenthashOf md5hex c) = true) →
        ∃ out, pollSite md5hex unified_diff transportOk cfg s sess =
            Except.ok (sess, out) ∧ out.changedContents = [] ∧
          out.storeWritten = false ∧ out.storedHashes = s.storedHashes) ∧
    (∀ (s : Site) (sess1 sess2 : Session) (l : List Content)
        (p1 p2 : Session × SiteOutcome),
        cfg.enableMailNotifications = false →
        s.parserResult = Except.ok l →
        pollSite md5hex unified_diff transportOk cfg s sess1 = Except.ok p1 →
        pollSite md5hex unified_diff transportOk cfg
            { s with storedHashes := p1.2.storedHashes, cache := p1.2.cache }
            sess2 = Except.ok p2 →
        p2.2.changedContents = [] ∧ p2.2.storeWritten = false ∧
          p2.2.storedHashes = p1.2.storedHashes) := by
  constructor
  · intro s sess l hp hall
    exact ⟨_,
      pollSite_allUnchanged md5hex unified_diff transportOk cfg s sess l hp hall,
      rfl, rfl, rfl⟩
  · intro s sess1 sess2 l p1 p2 hm hp h1 h2
    have hgate : (cfg.enableMailNotifications &&
        decide (s.storedHashes.length > 0)) = false := by simp [hm]
    have hbud : budgetAllows cfg sess1.mailsSent = true := by
      simp [budgetAllows, hm]
    have h3 := h1.symm.trans
      (pollSite_noSend md5hex unified_diff transportOk cfg s sess1 l hp hgate hbud)
    injection h3 with hp1
    subst hp1
    have hall2 : ∀ c ∈ l,
        (({ s with
            storedHashes := if (l.filter (fun c =>
                !(s.storedHashes.contains (contenthashOf md5hex c)))).length > 0 then
                l.map (contenthashOf md5hex) ++
                  (if s.keepHashes then s.storedHashes else [])
              else s.storedHashes } : Site)).storedHashes.contains
          (contenthashOf md5hex c) = true := by
      intro c hcl
      by_cases hf : (l.filter (fun c =>
          !(s.storedHashes.contains (contenthashOf md5hex c)))).length > 0
      · simp only [hf, if_true]
        simp [List.mem_append, List.mem_map]
        exact Or.inl ⟨c, hcl, rfl⟩
      · have hnil : l.filter (fun c =>
            !(s.storedHashes.contains (contenthashOf md5hex c))) = [] := by
          cases hfe : l.filter (fun c =>
              !(s.storedHashes.contains (contenthashOf md5hex c))) with
          | nil => rfl
          | cons x xs => rw [hfe] at hf; simp at hf
        have := List.filter_eq_nil_iff.mp hnil c hcl
        simp only [hf, if_false]
        simpa using this
    have h4 := h2.symm.trans
      (pollSite_allUnchanged md5hex unified_diff transportOk cfg _ sess2 l hp hall2)
    injection h4 with hp2
    subst hp2
    exact ⟨rfl, rfl, rfl⟩

end

/-- Witness for C2 at concrete inputs: part (1) on a site whose only item
is already stored; part (2) on a first run that stores `["A"]` followed by
a second identical run that changes nothing. -/
theorem c2_second_run_is_noop_witness :
    (∃ out, pollSite hashId ud0 sendOk cfgOff siteA_a sess0 =
        Except.ok (sess0, out) ∧ out.changedContents = [] ∧
      out.storeWritten = false ∧ out.storedHashes = siteA_a.storedHashes) ∧
    ((sess0, outA_second).2.changedContents = [] ∧
      (sess0, outA_second).2.storeWritten = false ∧
      (sess0, outA_second).2.storedHashes = (sess0, outA_first).2.storedHashes) := by
  refine ⟨(c2_second_run_is_noop hashId ud0 sendOk cfgOff).1 siteA_a sess0
    [itemA] rfl (by decide), ?_⟩
  exact (c2_second_run_is_noop hashId ud0 sendOk cfgOff).2 siteA_h sess0 sess0
    [itemA] (sess0, outA_first) (sess0, outA_second) rfl rfl (by decide) (by decide)

/-- Counterexample to C2 as stated: with mail notifications enabled and
`maxMailsPerSession = 1`, a first run over two new items `"A"`, `"B"`
sends one mail, exhausts the budget, drops `"B"` entirely, and stores
only `["A"]`; the second run on identical pipeline output then classifies
`"B"` as new and rewrites the store — so two successive runs on identical
output are not idempotent. -/
theorem c2_counterexample :
    (outcomeOf (pollSite hashId ud0 sendOk cfgM1 siteAB_h sess0)).storedHashes =
        ["A"] ∧
      (outcomeOf (pollSite hashId ud0 sendOk cfgM1
        { siteAB_h with storedHashes := ["A"] } sess0)).changedContents = [itemB] ∧
      (outcomeOf (pollSite hashId ud0 sendOk cfgM1
        { siteAB_h with storedHashes := ["A"] } sess0)).storeWritten = true ∧
      (outcomeOf (pollSite hashId ud0 sendOk cfgM1
        { siteAB_h with storedHashes := ["A"] } sess0)).storedHashes = ["A", "B"] ∧
      storeHashes ["A", "B"] ≠ storeHashes ["A"] := by
  decide

/-- Counterexample to C1 as stated: mail notifications enabled with
`maxMailsPerSession = 0` and the budget already exhausted; the single
item's fingerprint (`"X"`) is absent from the prior store, yet after the
site run the persisted store still lacks it (the store is not rewritten)
and the changed-items list passed to the post-run Sinks is empty — the
item is not "still recorded as changed". -/
theorem c1_counterexample :
    pollSite hashId ud0 sendOk cfgM0 siteX_h0 sess0 =
        Except.ok (sess0, outX_h0_skipped) ∧
      cfgM0.enableMailNotifications = true ∧ cfgM0.maxMailsPerSession = 0 ∧
      siteX_h0.storedHashes.contains (contenthashOf hashId itemX) = false ∧
      outX_h0_skipped.storedHashes.contains (contenthashOf hashId itemX) = false ∧
      outX_h0_skipped.storeWritten = false ∧
      outX_h0_skipped.changedContents = [] ∧
      outX_h0_skipped.postRunArg = some [] := by
  decide

section

variable (md5hex : String → String → String)
variable (unified_diff : String → String → String)
variable (transportOk : Mail → Bool)
variable (cfg : Config)

/-- Claim C3, amended: the snapshot of a diff-mode source is rewritten
exactly by the processing of items classified new whose recording the
budget guard admits — each such item step overwrites the snapshot with
the item's current content, whether the subsequent dispatch succeeds or
raises — while a run in which every item is classified unchanged leaves
the stored snapshot exactly as it was. -/
theorem c3_snapshot_follows_new_items :
    (∀ (s : Site) (sess : Session) (l : List Content),
        s.parserResult = Except.ok l → s.diff = true →
        (∀ c ∈ l, s.storedHashes.contains (contenthashOf md5hex c) = true) →
        ∃ out, pollSite md5hex unified_diff transportOk cfg s sess =
            Except.ok (sess, out) ∧ out.cache = s.cache) ∧
    (∀ (siteName receiver : String) (fileHashes : List String)
        (st : LoopState) (c : Content),
        fileHashes.contains (contenthashOf md5hex c) = false →
        budgetAllows cfg st.mailsSent = true →
        cacheOfResult (pollItem md5hex unified_diff transportOk cfg siteName
          receiver true fileHashes st c) = some c.content) := by
  constructor
  · intro s sess l hp _ hall
    exact ⟨_,
      pollSite_allUnchanged md5hex unified_diff transportOk cfg s sess l hp hall,
      rfl⟩
  · intro siteName receiver fileHashes st c hc hb
    simp [contenthashOf] at hc
    cases hcc : st.cache <;>
      (simp [pollItem, hc, hb, hcc, diff_and_store]
       split_ifs <;> simp [cacheOfResult])

end

/-- Witness for C3: an all-unchanged diff-mode run keeps snapshot
`some "old"`; a new-item diff-mode step overwrites it with the item
content. -/
theorem c3_snapshot_follows_new_items_witness :
    (∃ out, pollSite hashId ud0 sendOk cfgOff siteDiffOld sess0 =
        Except.ok (sess0, out) ∧ out.cache = siteDiffOld.cache) ∧
    cacheOfResult (pollItem hashId ud0 sendOk cfgOff "s" "r" true ["h"]
      loopOld itemA) = some itemA.content := by
  refine ⟨(c3_snapshot_follows_new_items hashId ud0 sendOk cfgOff).1 siteDiffOld
    sess0 [itemA] rfl rfl (by decide), ?_⟩
  exact (c3_snapshot_follows_new_items hashId ud0 sendOk cfgOff).2 "s" "r"
    ["h"] loopOld itemA (by decide) (by decide)

/-- Counterexample to C3 as stated: a diff-mode source processed in a run
where its only item is unchanged keeps its old snapshot `some "old"` — it
is not overwritten with the current content `"A"`, so the overwrite is
not unconditional. -/
theorem c3_counterexample :
    siteDiffOld.diff = true ∧
      (outcomeOf (pollSite hashId ud0 sendOk cfgOff siteDiffOld sess0)).cache =
        some "old" ∧
      (outcomeOf (pollSite hashId ud0 sendOk cfgOff siteDiffOld sess0)).cache ≠
        some itemA.content := by
  decide

section

variable (md5hex : String → String → String)
variable (unified_diff : String → String → String)
variable (transportOk : Mail → Bool)
variable (cfg : Config)

/-- Claim C4, amended: the persisted fingerprint record is an ordered
list, not a deduplicated set: on a rewriting run (here with mail
notifications disabled so the budget guard drops nothing) the stored
lines are the fingerprint of every item of the run in discovery order —
items with equal fingerprints each contribute their own entry — followed,
when `keepHashes` is set, by the entire prior list, duplicates included. -/
theorem c4_store_is_ordered_list (s : Site) (sess : Session) (l : List Content)
    (hm : cfg.enableMailNotifications = false)
    (hp : s.parserResult = Except.ok l)
    (hch : l.filter (fun c =>
      !(s.storedHashes.contains (contenthashOf md5hex c))) ≠ []) :
    ∃ out, pollSite md5hex unified_diff transportOk cfg s sess =
        Except.ok (sess, out) ∧
      out.storedHashes = l.map (contenthashOf md5hex) ++
        (if s.keepHashes then s.storedHashes else []) := by
  have hgate : (cfg.enableMailNotifications &&
      decide (s.storedHashes.length > 0)) = false := by simp [hm]
  have hbud : budgetAllows cfg sess.mailsSent = true := by
    simp [budgetAllows, hm]
  refine ⟨_,
    pollSite_noSend md5hex unified_diff transportOk cfg s sess l hp hgate hbud,
    ?_⟩
  have hpos := List.length_pos.mpr hch
  rw [if_pos hpos]

end

/-- Witness for C4: a run over `["A", "A"]` with empty prior store
persists the duplicated list. -/
theorem c4_store_is_ordered_list_witness :
    ∃ out, pollSite hashId ud0 sendOk cfgOff siteDup sess0 =
        Except.ok (sess0, out) ∧
      out.storedHashes = [itemA, itemA].map (contenthashOf hashId) ++
        (if siteDup.keepHashes then siteDup.storedHashes else []) :=
  c4_store_is_ordered_list hashId ud0 sendOk cfgOff siteDup sess0
    [itemA, itemA] rfl rfl (by decide)

/-- Counterexample to C4 as stated: two items with the same fingerprint in
one run both reach the persisted record, which therefore holds the
fingerprint string `"A"` twice — stored fingerprints are not unique. -/
theorem c4_counterexample :
    (outcomeOf (pollSite hashId ud0 sendOk cfgOff siteDup sess0)).storedHashes =
        ["A", "A"] ∧
      ¬ (outcomeOf
          (pollSite hashId ud0 sendOk cfgOff siteDup sess0)).storedHashes.Nodup := by
  decide

section

variable (md5hex : String → String → String)
variable (unified_diff : String → String → String)
variable (transportOk : Mail → Bool)
variable (cfg : Config)

/-- Claim C6, amended: for a source whose prior fingerprint set is empty,
provided the budget guard is open when the source is reached (mail
notifications disabled, unlimited maximum, or fewer mails sent than the
maximum), a run sends zero notifications for that source (the session
mail state is returned unchanged), and if the pipeline produced at least
one item the run rewrites the store with the items' fingerprints, leaving
it non-empty. -/
theorem c6_first_run_suppresses_but_records (s : Site) (sess : Session)
    (l : List Content)
    (hs : s.storedHashes = [])
    (hp : s.parserResult = Except.ok l) (hl : l ≠ [])
    (hbud : budgetAllows cfg sess.mailsSent = true) :
    ∃ out, pollSite md5hex unified_diff transportOk cfg s sess =
        Except.ok (sess, out) ∧
      out.storedHashes = l.map (contenthashOf md5hex) ∧
      out.storedHashes ≠ [] ∧ out.storeWritten = true := by
  have hgate : (cfg.enableMailNotifications &&
      decide (s.storedHashes.length > 0)) = false := by simp [hs]
  have hfil : l.filter (fun c =>
      !(s.storedHashes.contains (contenthashOf md5hex c))) = l := by
    simp [hs]
  have hpos : 0 < (l.filter (fun c =>
      !(s.storedHashes.contains (contenthashOf md5hex c)))).length := by
    rw [hfil]
    exact List.length_pos.mpr hl
  refine ⟨_,
    pollSite_noSend md5hex unified_diff transportOk cfg s sess l hp hgate hbud,
    ?_, ?_, ?_⟩
  · rw [if_pos hpos]
    cases s.keepHashes <;> simp [hs]
  · rw [if_pos hpos]
    cases s.keepHashes <;> simp [hs, hl]
  · simpa using hpos

end

/-- Witness for C6: empty prior store, one item, budget open; the run
stores `["A"]`, leaves the session untouched, and rewrites the file. -/
theorem c6_first_run_suppresses_but_records_witness :
    ∃ out, pollSite hashId ud0 sendOk cfgUnl siteFresh sess0 =
        Except.ok (sess0, out) ∧
      out.storedHashes = [itemA].map (contenthashOf hashId) ∧
      out.storedHashes ≠ [] ∧ out.storeWritten = true :=
  c6_first_run_suppresses_but_records hashId ud0 sendOk cfgUnl siteFresh sess0
    [itemA] rfl rfl (by decide) (by decide)

/-- Counterexample to C6 as stated: with mail notifications enabled and
`maxMailsPerSession = 0`, a first-run source (empty prior store) whose
pipeline produced one item sends zero notifications but also records
nothing — the fingerprint store is still empty afterward. -/
theorem c6_counterexample :
    pollSite hashId ud0 sendOk cfgM0 siteFresh sess0 =
        Except.ok (sess0, untouchedOutcome siteFresh) ∧
      siteFresh.storedHashes = [] ∧
      siteFresh.parserResult = Except.ok [itemA] ∧
      (untouchedOutcome siteFresh).storedHashes = [] ∧
      (untouchedOutcome siteFresh).storeWritten = false := by
  decide

section

variable (md5hex : String → String → String)
variable (unified_diff : String → String → String)
variable (transportOk : Mail → Bool)
variable (cfg : Config)

/-- Claim C7, amended: with prior store `[a, b]` and a run (here with mail
notifications disabled, so the budget guard drops nothing) whose items all
carry one fingerprint `ch` distinct from `a` and `b`, the store after the
run contains, as a set, exactly `ch` together with — exactly when
`keepHashes` is set — `a` and `b`. -/
theorem c7_keepHashes_growth (s : Site) (sess : Session) (l : List Content)
    (a b ch : String)
    (hm : cfg.enableMailNotifications = false)
    (hs : s.storedHashes = [a, b])
    (hp : s.parserResult = Except.ok l) (hl : l ≠ [])
    (hhash : ∀ c ∈ l, contenthashOf md5hex c = ch)
    (hca : ch ≠ a) (hcb : ch ≠ b) :
    ∃ out, pollSite md5hex unified_diff transportOk cfg s sess =
        Except.ok (sess, out) ∧
      (∀ x, x ∈ out.storedHashes ↔
        x = ch ∨ (s.keepHashes = true ∧ (x = a ∨ x = b))) := by
  have hgate : (cfg.enableMailNotifications &&
      decide (s.storedHashes.length > 0)) = false := by simp [hm]
  have hbud : budgetAllows cfg sess.mailsSent = true := by
    simp [budgetAllows, hm]
  have hfil : l.filter (fun c =>
      !(s.storedHashes.contains (contenthashOf md5hex c))) = l := by
    apply List.filter_eq_self.mpr
    intro c hcl
    rw [hhash c hcl, hs]
    simp [hca, hcb]
  have hpos : 0 < (l.filter (fun c =>
      !(s.storedHashes.contains (contenthashOf md5hex c)))).length := by
    rw [hfil]
    exact List.length_pos.mpr hl
  refine ⟨_,
    pollSite_noSend md5hex unified_diff transportOk cfg s sess l hp hgate hbud,
    ?_⟩
  intro x
  rw [if_pos hpos, List.mem_append]
  constructor
  · rintro (hx | hx)
    · rcases List.mem_map.mp hx with ⟨c, hcl, hcx⟩
      exact Or.inl (by rw [← hcx, hhash c hcl])
    · cases hk : s.keepHashes with
      | false => rw [hk] at hx; simp at hx
      | true =>
        rw [hk] at hx
        simp only [if_true] at hx
        rw [hs] at hx
        simp at hx
        exact Or.inr ⟨rfl, hx⟩
  · rintro (rfl | ⟨hk, hab⟩)
    · rcases List.exists_mem_of_ne_nil l hl with ⟨c, hcl⟩
      exact Or.inl (List.mem_map.mpr ⟨c, hcl, hhash c hcl⟩)
    · right
      rw [hk]
      simp only [if_true]
      rw [hs]
      simp [hab]

end

/-- Witness for C7: prior store `["A", "B"]`, one item hashing to `"C"`,
`keepHashes` set: the resulting store holds exactly `{A, B, C}`. -/
theorem c7_keepHashes_growth_witness :
    ∃ out, pollSite hashId ud0 sendOk cfgOff siteC_AB sess0 =
        Except.ok (sess0, out) ∧
      (∀ x, x ∈ out.storedHashes ↔
        x = "C" ∨ (siteC_AB.keepHashes = true ∧ (x = "A" ∨ x = "B"))) :=
  c7_keepHashes_growth hashId ud0 sendOk cfgOff siteC_AB sess0 [itemC]
    "A" "B" "C" rfl rfl rfl (by decide) (by decide) (by decide) (by decide)

/-- Counterexample to C7 as stated: under an exhausted notification budget
(mail on, maximum 0) run 2's new fingerprint `"C"` is dropped, so with
`keepHashes` the store stays `["A", "B"]` (no `"C"`), and without the flag
it does not become `["C"]` either. -/
theorem c7_counterexample :
    (outcomeOf (pollSite hashId ud0 sendOk cfgM0 siteC_AB sess0)).storedHashes =
        ["A", "B"] ∧
      ¬ ("C" ∈ (outcomeOf
          (pollSite hashId ud0 sendOk cfgM0 siteC_AB sess0)).storedHashes) ∧
      (outcomeOf (pollSite hashId ud0 sendOk cfgM0
        { siteC_AB with keepHashes := false } sess0)).storedHashes ≠ ["C"] := by
  decide

section

variable (md5hex : String → String → String)
variable (unified_diff : String → String → String)
variable (transportOk : Mail → Bool)
variable (cfg : Config)

/-- Claim C9, amended: on every site run whose pipeline succeeded and
that completed without a transport exception, the post-run Sinks are
invoked exactly when a post-run pipeline is configured — even when zero
items changed, in which case they receive the empty list — and the
argument they receive is exactly the changed-items list; with mail
notifications disabled that list is precisely the items with fresh
fingerprints in discovery order. -/
theorem c9_postRun_invoked_whenever_configured :
    (∀ (s : Site) (sess : Session) (l : List Content)
        (p : Session × SiteOutcome),
        s.parserResult = Except.ok l →
        pollSite md5hex unified_diff transportOk cfg s sess = Except.ok p →
        p.2.postRunArg =
          (if s.postRun then some p.2.changedContents else none)) ∧
    (∀ (s : Site) (sess : Session) (l : List Content),
        cfg.enableMailNotifications = false →
        s.parserResult = Except.ok l →
        ∃ out, pollSite md5hex unified_diff transportOk cfg s sess =
            Except.ok (sess, out) ∧
          out.changedContents = l.filter (fun c =>
            !(s.storedHashes.contains (contenthashOf md5hex c))) ∧
          out.postRunArg =
            (if s.postRun then some out.changedContents else none)) := by
  constructor
  · intro s sess l p hp hpoll
    unfold pollSite at hpoll
    rw [hp] at hpoll
    dsimp only at hpoll
    cases hres : pollItems md5hex unified_diff transportOk cfg s.name
        (s.receiver.getD cfg.receiver) s.diff s.storedHashes l
        { mailsSent := sess.mailsSent, sentMails := sess.sentMails,
          sessionHashes := [], changedContents := [], cache := s.cache } with
    | error st =>
      rw [hres] at hpoll
      simp at hpoll
    | ok st =>
      rw [hres] at hpoll
      dsimp only at hpoll
      by_cases hch : decide (st.changedContents.length > 0) = true
      · rw [if_pos hch] at hpoll
        injection hpoll with hpeq
        subst hpeq
        rfl
      · rw [if_neg hch] at hpoll
        injection hpoll with hpeq
        subst hpeq
        rfl
  · intro s sess l hm hp
    have hgate : (cfg.enableMailNotifications &&
        decide (s.storedHashes.length > 0)) = false := by simp [hm]
    have hbud : budgetAllows cfg sess.mailsSent = true := by
      simp [budgetAllows, hm]
    exact ⟨_,
      pollSite_noSend md5hex unified_diff transportOk cfg s sess l hp hgate hbud,
      rfl, rfl⟩

end

/-- Witness for C9: a site with a configured post-run pipeline and no
changed items still invokes the Sinks, with the empty list. -/
theorem c9_postRun_invoked_whenever_configured_witness :
    ((sess0, outPost).2.postRunArg =
        (if sitePostOld.postRun then some (sess0, outPost).2.changedContents
          else none)) ∧
      (∃ out, pollSite hashId ud0 sendOk cfgOff sitePostOld sess0 =
          Except.ok (sess0, out) ∧
        out.changedContents = [itemA].filter (fun c =>
          !(sitePostOld.storedHashes.contains (contenthashOf hashId c))) ∧
        out.postRunArg =
          (if sitePostOld.postRun then some out.changedContents else none)) := by
  constructor
  · exact (c9_postRun_invoked_whenever_configured hashId ud0 sendOk cfgOff).1
      sitePostOld sess0 [itemA] (sess0, outPost) rfl (by decide)
  · exact (c9_postRun_invoked_whenever_configured hashId ud0 sendOk cfgOff).2
      sitePostOld sess0 [itemA] rfl rfl

/-- Counterexample to C9 as stated: a source with a configured post-run
pipeline and zero changed items still has its Sinks invoked — with the
empty list — so the invocation is not conditional on at least one changed
item. -/
theorem c9_counterexample :
    sitePostOld.postRun = true ∧
      (outcomeOf
        (pollSite hashId ud0 sendOk cfgOff sitePostOld sess0)).changedContents =
        [] ∧
      (outcomeOf
        (pollSite hashId ud0 sendOk cfgOff sitePostOld sess0)).postRunArg =
        some [] := by
  decide

section

variable (md5hex : String → String → String)
variable (unified_diff : String → String → String)
variable (transportOk : Mail → Bool)
variable (cfg : Config)

/-- Claim C10: for every new item that is dispatched (budget open, mail
enabled, non-empty prior history, transport succeeding), the notification
of a diff-mode source is sent as plain text — the HTML flag is false
regardless of the item's content type — with the diff-or-sentinel body
(`diffDisplay`) instead of the full content; without diff mode the HTML
flag is set exactly when the item's content type equals `"html"` and the
body is the full content. -/
theorem c10_diff_mode_dispatch_shape (siteName receiver : String)
    (diff_mode : Bool) (fileHashes : List String) (st : LoopState) (c : Content)
    (hc : fileHashes.contains (contenthashOf md5hex c) = false)
    (hb : budgetAllows cfg st.mailsSent = true)
    (hm : cfg.enableMailNotifications = true)
    (hfh : fileHashes ≠ [])
    (hT : ∀ m, transportOk m = true) :
    ∃ st' mail, pollItem md5hex unified_diff transportOk cfg siteName receiver
        diff_mode fileHashes st c = Except.ok st' ∧
      st'.sentMails = st.sentMails ++ [mail] ∧
      mail.sendAsHtml = (if diff_mode then false else c.contenttype == "html") ∧
      (diff_mode = true →
        mail.content = diffDisplay unified_diff st.cache c.content) ∧
      (diff_mode = false → mail.content = c.content) := by
  have hlen : decide (fileHashes.length > 0) = true := by
    simp [List.length_pos.mpr hfh]
  simp [contenthashOf] at hc
  have e : pollItem md5hex unified_diff transportOk cfg siteName receiver
      diff_mode fileHashes st c = Except.ok
        { mailsSent := st.mailsSent + 1,
            sentMails := st.sentMails ++
              [{ receivers := receiver :: c.receivers.getD [],
                   subject := "[" ++ siteName ++ "] " ++
                     c.title.getD "Update available",
                   content := if diff_mode then
                       diffDisplay unified_diff st.cache c.content
                     else c.content,
                   sendAsHtml := if diff_mode then false
                     else c.contenttype == "html",
                   link := c.uri, encoding := some c.encoding }],
            sessionHashes := st.sessionHashes ++ [md5hex c.content c.encoding],
            changedContents := st.changedContents ++ [c],
            cache := if diff_mode then
                (diff_and_store unified_diff st.cache c.content).2
              else st.cache } := by
    simp [pollItem, hc, hb, hm, hlen, hT]
  exact ⟨_, _, e, rfl, rfl, fun hd => by simp [hd], fun hd => by simp [hd]⟩

/-- A new item whose dispatch is attempted on an always-failing transport
raises, carrying the in-memory state (including the already-rewritten
snapshot in diff mode) without incrementing the mail counter. -/
lemma pollItem_new_raises (siteName receiver : String) (diff_mode : Bool)
    (fileHashes : List String) (st : LoopState) (c : Content)
    (hc : fileHashes.contains (contenthashOf md5hex c) = false)
    (hb : budgetAllows cfg st.mailsSent = true)
    (hgate : (cfg.enableMailNotifications && decide (fileHashes.length > 0)) = true)
    (hT : ∀ m, transportOk m = false) :
    pollItem md5hex unified_diff transportOk cfg siteName receiver diff_mode
        fileHashes st c =
      Except.error { st with
        sessionHashes := st.sessionHashes ++ [contenthashOf md5hex c],
        changedContents := st.changedContents ++ [c],
        cache := if diff_mode then some c.content else st.cache } := by
  simp [contenthashOf] at hc
  cases hcc : st.cache <;>
    simp [pollItem, hc, hb, hgate, hT, diff_and_store, hcc, contenthashOf]

/-- With an always-failing transport, unlimited budget, mail enabled and a
non-empty prior store, the item loop raises at the first fresh-fingerprint
item, leaving the mail counter and the sent log untouched. -/
lemma pollItems_raises_on_first_new (siteName receiver : String)
    (diff_mode : Bool) (fileHashes : List String) (l : List Content)
    (st : LoopState)
    (hT : ∀ m, transportOk m = false)
    (hm : cfg.enableMailNotifications = true)
    (hM : cfg.maxMailsPerSession = -1)
    (hgate : (cfg.enableMailNotifications && decide (fileHashes.length > 0)) = true)
    (hex : ∃ c ∈ l, fileHashes.contains (contenthashOf md5hex c) = false) :
    ∃ st2, pollItems md5hex unified_diff transportOk cfg siteName receiver
        diff_mode fileHashes l st = Except.error st2 ∧
      st2.mailsSent = st.mailsSent ∧ st2.sentMails = st.sentMails := by
  induction l generalizing st with
  | nil => simp at hex
  | cons c rest ih =>
    have hb : budgetAllows cfg st.mailsSent = true := by
      simp [budgetAllows, hM]
    by_cases hc : fileHashes.contains (contenthashOf md5hex c) = true
    · rw [pollItems, pollItem_unchanged md5hex unified_diff transportOk cfg
        siteName receiver diff_mode fileHashes st c hc]
      dsimp only
      have hex' : ∃ x ∈ rest,
          fileHashes.contains (contenthashOf md5hex x) = false := by
        rcases hex with ⟨x, hx, hxc⟩
        rcases List.mem_cons.mp hx with heq | hxr
        · subst heq
          rw [hc] at hxc
          exact Bool.noConfusion hxc
        · exact ⟨x, hxr, hxc⟩
      exact ih _ hex'
    · rw [pollItems, pollItem_new_raises md5hex unified_diff transportOk cfg
        siteName receiver diff_mode fileHashes st c
        (Bool.not_eq_true _ ▸ hc) hb hgate hT]
      exact ⟨_, rfl, rfl, rfl⟩

/-- Site-level version: the run of such a site raises, the session mail
state at the raise equals the state at entry, and the site's fingerprint
store is left unwritten. -/
lemma pollSite_raises (s : Site) (sess : Session) (l : List Content)
    (hp : s.parserResult = Except.ok l)
    (hT : ∀ m, transportOk m = false)
    (hm : cfg.enableMailNotifications = true)
    (hM : cfg.maxMailsPerSession = -1)
    (hfh : s.storedHashes ≠ [])
    (hex : ∃ c ∈ l, s.storedHashes.contains (contenthashOf md5hex c) = false) :
    ∃ out, pollSite md5hex unified_diff transportOk cfg s sess =
        Except.error (sess, out) ∧
      out.storeWritten = false ∧ out.storedHashes = s.storedHashes := by
  have hgate : (cfg.enableMailNotifications &&
      decide (s.storedHashes.length > 0)) = true := by
    simp [hm, List.length_pos.mpr hfh]
  unfold pollSite
  rw [hp]
  dsimp only
  obtain ⟨st2, he, h1, h2⟩ := pollItems_raises_on_first_new md5hex unified_diff
    transportOk cfg s.name (s.receiver.getD cfg.receiver) s.diff s.storedHashes l
    { mailsSent := sess.mailsSent, sentMails := sess.sentMails,
      sessionHashes := [], changedContents := [], cache := s.cache }
    hT hm hM hgate hex
  rw [he]
  dsimp only
  dsimp only at h1 h2
  rw [h1, h2]
  exact ⟨_, rfl, rfl, rfl⟩

end

/-- Witness for C10 at a concrete input: diff mode, an item whose content
type is `"html"`, a stored snapshot; the dispatched mail is plain text
with the diff-or-sentinel body. -/
theorem c10_diff_mode_dispatch_shape_witness :
    ∃ st' mail, pollItem hashId ud0 sendOk cfgUnl "s" "r" true ["h"]
        loopOld itemX = Except.ok st' ∧
      st'.sentMails = loopOld.sentMails ++ [mail] ∧
      mail.sendAsHtml = (if true then false else itemX.contenttype == "html") ∧
      (true = true → mail.content = diffDisplay ud0 loopOld.cache itemX.content) ∧
      (true = false → mail.content = itemX.content) :=
  c10_diff_mode_dispatch_shape hashId ud0 sendOk cfgUnl "s" "r" true ["h"]
    loopOld itemX (by decide) (by decide) rfl (by decide) (fun _ => rfl)

section

variable (md5hex : String → String → String)
variable (unified_diff : String → String → String)
variable (transportOk : Mail → Bool)
variable (cfg : Config)

/-- The budget guard with mail enabled and a non-negative configured
maximum `M` is exactly the comparison `mailsSent < M`. -/
lemma budgetAllows_natMax (M : Nat) (hm : cfg.enableMailNotifications = true)
    (hM : cfg.maxMailsPerSession = (M : Int)) (m : Nat) :
    budgetAllows cfg m = decide (m < M) := by
  have h1 : ((M : Int) == (-1 : Int)) = false := by
    simp only [beq_eq_false_iff_ne]
    omega
  simp [budgetAllows, hm, hM, h1, Nat.cast_lt]

/-- An item whose fingerprint is absent from the prior set processed while
the budget guard is closed is dropped: the loop state is unchanged. -/
lemma pollItem_budget_closed (siteName receiver : String) (diff_mode : Bool)
    (fileHashes : List String) (st : LoopState) (c : Content)
    (hc : fileHashes.contains (contenthashOf md5hex c) = false)
    (hb : budgetAllows cfg st.mailsSent = false) :
    pollItem md5hex unified_diff transportOk cfg siteName receiver diff_mode
      fileHashes st c = Except.ok st := by
  simp [contenthashOf] at hc
  simp [pollItem, hc, hb]

/-- A new item processed while the budget admits it, with the mail gate on
and a succeeding transport, is recorded and dispatched: the mail counter
increments by one. -/
lemma pollItem_new_sends_eq (siteName receiver : String) (diff_mode : Bool)
    (fileHashes : List String) (st : LoopState) (c : Content)
    (hc : fileHashes.contains (contenthashOf md5hex c) = false)
    (hb : budgetAllows cfg st.mailsSent = true)
    (hgate : (cfg.enableMailNotifications && decide (fileHashes.length > 0)) = true)
    (hT : ∀ m, transportOk m = true) :
    pollItem md5hex unified_diff transportOk cfg siteName receiver diff_mode
        fileHashes st c = Except.ok
      { mailsSent := st.mailsSent + 1,
          sentMails := st.sentMails ++
            [{ receivers := receiver :: c.receivers.getD [],
                 subject := "[" ++ siteName ++ "] " ++
                   c.title.getD "Update available",
                 content := if diff_mode then
                     diffDisplay unified_diff st.cache c.content
                   else c.content,
                 sendAsHtml := if diff_mode then false
                   else c.contenttype == "html",
                 link := c.uri, encoding := some c.encoding }],
          sessionHashes := st.sessionHashes ++ [contenthashOf md5hex c],
          changedContents := st.changedContents ++ [c],
          cache := if diff_mode then
              (diff_and_store unified_diff st.cache c.content).2
            else st.cache } := by
  simp [contenthashOf] at hc ⊢
  simp [pollItem, hc, hb, hgate, hT]

/-- Mail count of the item loop under a non-negative maximum `M`: with
mail enabled, a succeeding transport and a non-empty prior store, the loop
completes and the counter ends at the minimum of `M` and the starting
count plus the number of fresh-fingerprint items. -/
lemma pollItems_mail_count (M : Nat) (siteName receiver : String)
    (diff_mode : Bool) (fileHashes : List String) (l : List Content)
    (st : LoopState)
    (hm : cfg.enableMailNotifications = true)
    (hM : cfg.maxMailsPerSession = (M : Int))
    (hT : ∀ m, transportOk m = true)
    (hfh : fileHashes ≠ [])
    (hle : st.mailsSent ≤ M) :
    ∃ st', pollItems md5hex unified_diff transportOk cfg siteName receiver
        diff_mode fileHashes l st = Except.ok st' ∧
      st'.mailsSent = min (st.mailsSent +
        (l.filter (fun c =>
          !(fileHashes.contains (contenthashOf md5hex c)))).length) M := by
  have hgate : (cfg.enableMailNotifications &&
      decide (fileHashes.length > 0)) = true := by
    simp [hm, List.length_pos.mpr hfh]
  induction l generalizing st with
  | nil =>
    refine ⟨st, by simp [pollItems], ?_⟩
    simp
    omega
  | cons c rest ih =>
    by_cases hc : fileHashes.contains (contenthashOf md5hex c) = true
    · rw [pollItems, pollItem_unchanged md5hex unified_diff transportOk cfg
        siteName receiver diff_mode fileHashes st c hc]
      dsimp only
      obtain ⟨st', he, hcnt⟩ := ih { st with
        sessionHashes := st.sessionHashes ++ [contenthashOf md5hex c] } hle
      refine ⟨st', he, ?_⟩
      rw [hcnt]
      have hcm : contenthashOf md5hex c ∈ fileHashes := by simpa using hc
      simp [List.filter_cons, hcm]
    · have hc' : fileHashes.contains (contenthashOf md5hex c) = false :=
        Bool.not_eq_true _ ▸ hc
      have hcm : contenthashOf md5hex c ∉ fileHashes := by simpa using hc'
      by_cases hlt : st.mailsSent < M
      · have hb : budgetAllows cfg st.mailsSent = true := by
          rw [budgetAllows_natMax cfg M hm hM]
          simp [hlt]
        obtain ⟨stR, heR, hR⟩ : ∃ stR, pollItem md5hex unified_diff transportOk
            cfg siteName receiver diff_mode fileHashes st c = Except.ok stR ∧
            stR.mailsSent = st.mailsSent + 1 :=
          ⟨_, pollItem_new_sends_eq md5hex unified_diff transportOk cfg siteName
            receiver diff_mode fileHashes st c hc' hb hgate hT, rfl⟩
        rw [pollItems, heR]
        dsimp only
        obtain ⟨st', he, hcnt⟩ := ih stR (by rw [hR]; omega)
        refine ⟨st', he, ?_⟩
        rw [hcnt, hR]
        simp [List.filter_cons, hcm]
        omega
      · have hb : budgetAllows cfg st.mailsSent = false := by
          rw [budgetAllows_natMax cfg M hm hM]
          simp [hlt]
        rw [pollItems, pollItem_budget_closed md5hex unified_diff transportOk
          cfg siteName receiver diff_mode fileHashes st c hc' hb]
        dsimp only
        obtain ⟨st', he, hcnt⟩ := ih st hle
        refine ⟨st', he, ?_⟩
        rw [hcnt]
        simp [List.filter_cons, hcm]
        omega

/-- Mail count of the item loop under an unlimited budget. -/
lemma pollItems_mail_count_unl (siteName receiver : String)
    (diff_mode : Bool) (fileHashes : List String) (l : List Content)
    (st : LoopState)
    (hm : cfg.enableMailNotifications = true)
    (hM : cfg.maxMailsPerSession = -1)
    (hT : ∀ m, transportOk m = true)
    (hfh : fileHashes ≠ []) :
    ∃ st', pollItems md5hex unified_diff transportOk cfg siteName receiver
        diff_mode fileHashes l st = Except.ok st' ∧
      st'.mailsSent = st.mailsSent +
        (l.filter (fun c =>
          !(fileHashes.contains (contenthashOf md5hex c)))).length := by
  have hgate : (cfg.enableMailNotifications &&
      decide (fileHashes.length > 0)) = true := by
    simp [hm, List.length_pos.mpr hfh]
  induction l generalizing st with
  | nil => exact ⟨st, by simp [pollItems], by simp⟩
  | cons c rest ih =>
    have hb : budgetAllows cfg st.mailsSent = true := by
      simp [budgetAllows, hM]
    by_cases hc : fileHashes.contains (contenthashOf md5hex c) = true
    · rw [pollItems, pollItem_unchanged md5hex unified_diff transportOk cfg
        siteName receiver diff_mode fileHashes st c hc]
      dsimp only
      obtain ⟨st', he, hcnt⟩ := ih { st with
        sessionHashes := st.sessionHashes ++ [contenthashOf md5hex c] }
      refine ⟨st', he, ?_⟩
      rw [hcnt]
      have hcm : contenthashOf md5hex c ∈ fileHashes := by simpa using hc
      simp [List.filter_cons, hcm]
    · have hc' : fileHashes.contains (contenthashOf md5hex c) = false :=
        Bool.not_eq_true _ ▸ hc
      have hcm : contenthashOf md5hex c ∉ fileHashes := by simpa using hc'
      obtain ⟨stR, heR, hR⟩ : ∃ stR, pollItem md5hex unified_diff transportOk
          cfg siteName receiver diff_mode fileHashes st c = Except.ok stR ∧
          stR.mailsSent = st.mailsSent + 1 :=
        ⟨_, pollItem_new_sends_eq md5hex unified_diff transportOk cfg siteName
          receiver diff_mode fileHashes st c hc' hb hgate hT, rfl⟩
      rw [pollItems, heR]
      dsimp only
      obtain ⟨st', he, hcnt⟩ := ih stR
      refine ⟨st', he, ?_⟩
      rw [hcnt, hR]
      simp [List.filter_cons, hcm]
      omega

/-- Site-level mail count, bounded case. -/
lemma pollSite_mail_count (M : Nat) (s : Site) (sess : Session)
    (l : List Content)
    (hp : s.parserResult = Except.ok l)
    (hm : cfg.enableMailNotifications = true)
    (hM : cfg.maxMailsPerSession = (M : Int))
    (hT : ∀ m, transportOk m = true)
    (hfh : s.storedHashes ≠ [])
    (hle : sess.mailsSent ≤ M) :
    ∃ sess' out, pollSite md5hex unified_diff transportOk cfg s sess =
        Except.ok (sess', out) ∧
      sess'.mailsSent = min (sess.mailsSent + newItemCount md5hex s) M := by
  have hcnt_eq : newItemCount md5hex s = (l.filter (fun c =>
      !(s.storedHashes.contains (contenthashOf md5hex c)))).length := by
    simp [newItemCount, hp]
  unfold pollSite
  rw [hp]
  dsimp only
  obtain ⟨st', he, hcnt⟩ := pollItems_mail_count md5hex unified_diff transportOk cfg M s.name
    (s.receiver.getD cfg.receiver) s.diff s.storedHashes l
    { mailsSent := sess.mailsSent, sentMails := sess.sentMails,
      sessionHashes := [], changedContents := [], cache := s.cache }
    hm hM hT hfh hle
  rw [he]
  dsimp only
  dsimp only at hcnt
  by_cases hch : decide (st'.changedContents.length > 0) = true
  · rw [if_pos hch]
    exact ⟨_, _, rfl, by rw [hcnt_eq]; exact hcnt⟩
  · rw [if_neg hch]
    exact ⟨_, _, rfl, by rw [hcnt_eq]; exact hcnt⟩

/-- Site-level mail count, unlimited case. -/
lemma pollSite_mail_count_unl (s : Site) (sess : Session) (l : List Content)
    (hp : s.parserResult = Except.ok l)
    (hm : cfg.enableMailNotifications = true)
    (hM : cfg.maxMailsPerSession = -1)
    (hT : ∀ m, transportOk m = true)
    (hfh : s.storedHashes ≠ []) :
    ∃ sess' out, pollSite md5hex unified_diff transportOk cfg s sess =
        Except.ok (sess', out) ∧
      sess'.mailsSent = sess.mailsSent + newItemCount md5hex s := by
  have hcnt_eq : newItemCount md5hex s = (l.filter (fun c =>
      !(s.storedHashes.contains (contenthashOf md5hex c)))).length := by
    simp [newItemCount, hp]
  unfold pollSite
  rw [hp]
  dsimp only
  obtain ⟨st', he, hcnt⟩ := pollItems_mail_count_unl md5hex unified_diff transportOk cfg s.name
    (s.receiver.getD cfg.receiver) s.diff s.storedHashes l
    { mailsSent := sess.mailsSent, sentMails := sess.sentMails,
      sessionHashes := [], changedContents := [], cache := s.cache }
    hm hM hT hfh
  rw [he]
  dsimp only
  dsimp only at hcnt
  by_cases hch : decide (st'.changedContents.length > 0) = true
  · rw [if_pos hch]
    exact ⟨_, _, rfl, by rw [hcnt_eq]; exact hcnt⟩
  · rw [if_neg hch]
    exact ⟨_, _, rfl, by rw [hcnt_eq]; exact hcnt⟩

/-- Session-level mail count, bounded case. -/
lemma pollWebsites_mail_count (M : Nat) (sites : List Site) (sess : Session)
    (hm : cfg.enableMailNotifications = true)
    (hM : cfg.maxMailsPerSession = (M : Int))
    (hT : ∀ m, transportOk m = true)
    (hsites : ∀ s ∈ sites, s.storedHashes ≠ [] ∧
      ∃ l, s.parserResult = Except.ok l)
    (hle : sess.mailsSent ≤ M) :
    (pollWebsites md5hex unified_diff transportOk cfg
        sites sess).session.mailsSent =
      min (sess.mailsSent + totalNewItems md5hex sites) M := by
  induction sites generalizing sess with
  | nil =>
    simp [pollWebsites, totalNewItems]
    omega
  | cons s rest ih =>
    obtain ⟨hfh, l, hp⟩ := hsites s (List.mem_cons_self s rest)
    obtain ⟨sess', out, he, hcnt⟩ :=
      pollSite_mail_count md5hex unified_diff transportOk cfg M s sess l hp hm hM hT hfh hle
    rw [pollWebsites, he]
    dsimp only
    have hle' : sess'.mailsSent ≤ M := by rw [hcnt]; omega
    rw [ih sess' (fun x hx => hsites x (List.mem_cons_of_mem s hx)) hle']
    rw [hcnt]
    simp [totalNewItems]
    omega

/-- Session-level mail count, unlimited case. -/
lemma pollWebsites_mail_count_unl (sites : List Site) (sess : Session)
    (hm : cfg.enableMailNotifications = true)
    (hM : cfg.maxMailsPerSession = -1)
    (hT : ∀ m, transportOk m = true)
    (hsites : ∀ s ∈ sites, s.storedHashes ≠ [] ∧
      ∃ l, s.parserResult = Except.ok l) :
    (pollWebsites md5hex unified_diff transportOk cfg
        sites sess).session.mailsSent =
      sess.mailsSent + totalNewItems md5hex sites := by
  induction sites generalizing sess with
  | nil => simp [pollWebsites, totalNewItems]
  | cons s rest ih =>
    obtain ⟨hfh, l, hp⟩ := hsites s (List.mem_cons_self s rest)
    obtain ⟨sess', out, he, hcnt⟩ :=
      pollSite_mail_count_unl md5hex unified_diff transportOk cfg s sess l hp hm hM hT hfh
    rw [pollWebsites, he]
    dsimp only
    rw [ih sess' (fun x hx => hsites x (List.mem_cons_of_mem s hx))]
    rw [hcnt]
    simp [totalNewItems]
    omega

/-- Claim C5: with mail notifications enabled, every configured source
having a non-empty prior fingerprint history and a successfully produced
item list, and a transport on which every dispatch succeeds, a session
started fresh dispatches exactly `min(N, M)` notifications when the
configured maximum is `M >= 0`, and exactly `N` when it is `-1`, where
`N` is the total number of items whose fingerprint is absent from their
source's prior store. -/
theorem c5_budget_enforcement :
    (∀ (M : Nat) (sites : List Site),
        cfg.enableMailNotifications = true →
        cfg.maxMailsPerSession = (M : Int) →
        (∀ m, transportOk m = true) →
        (∀ s ∈ sites, s.storedHashes ≠ [] ∧
          ∃ l, s.parserResult = Except.ok l) →
        (pollWebsites md5hex unified_diff transportOk cfg sites
            { mailsSent := 0, sentMails := [] }).session.mailsSent =
          min (totalNewItems md5hex sites) M) ∧
    (∀ (sites : List Site),
        cfg.enableMailNotifications = true →
        cfg.maxMailsPerSession = -1 →
        (∀ m, transportOk m = true) →
        (∀ s ∈ sites, s.storedHashes ≠ [] ∧
          ∃ l, s.parserResult = Except.ok l) →
        (pollWebsites md5hex unified_diff transportOk cfg sites
            { mailsSent := 0, sentMails := [] }).session.mailsSent =
          totalNewItems md5hex sites) := by
  constructor
  · intro M sites hm hM hT hsites
    have h := pollWebsites_mail_count md5hex unified_diff transportOk cfg M sites
      { mailsSent := 0, sentMails := [] } hm hM hT hsites (Nat.zero_le M)
    simpa using h
  · intro sites hm hM hT hsites
    have h := pollWebsites_mail_count_unl md5hex unified_diff transportOk cfg sites
      { mailsSent := 0, sentMails := [] } hm hM hT hsites
    simpa using h

/-- Claim C8, amended: a failure of the mail transport during an item
dispatch is an uncaught exception inside the site loop: it aborts the
session — the current source's fingerprint store is left unwritten and
every remaining source is left unprocessed with its persisted state
untouched — and the failed dispatch does not increment the per-session
notification counter (the session mail state at the abort equals the
state at entry). -/
theorem c8_transport_failure_aborts_session (s : Site) (rest : List Site)
    (sess : Session) (l : List Content)
    (hT : ∀ m, transportOk m = false)
    (hm : cfg.enableMailNotifications = true)
    (hM : cfg.maxMailsPerSession = -1)
    (hp : s.parserResult = Except.ok l)
    (hfh : s.storedHashes ≠ [])
    (hex : ∃ c ∈ l, s.storedHashes.contains (contenthashOf md5hex c) = false) :
    ∃ out, pollWebsites md5hex unified_diff transportOk cfg (s :: rest) sess =
        { outcomes := out :: rest.map untouchedOutcome, session := sess,
            aborted := true } ∧
      out.storeWritten = false ∧ out.storedHashes = s.storedHashes := by
  obtain ⟨out, he, h1, h2⟩ := pollSite_raises md5hex unified_diff transportOk
    cfg s sess l hp hT hm hM hfh hex
  refine ⟨out, ?_, h1, h2⟩
  rw [pollWebsites, he]

end

/-- Witness for C5 at a concrete input: one source with two new items and
prior history dispatches `min(2, 1) = 1` mail under maximum 1 and 2 mails
under an unlimited maximum. -/
theorem c5_budget_enforcement_witness :
    (pollWebsites hashId ud0 sendOk cfgM1 [siteAB_h]
        { mailsSent := 0, sentMails := [] }).session.mailsSent =
      min (totalNewItems hashId [siteAB_h]) 1 ∧
    (pollWebsites hashId ud0 sendOk cfgUnl [siteAB_h]
        { mailsSent := 0, sentMails := [] }).session.mailsSent =
      totalNewItems hashId [siteAB_h] := by
  constructor
  · exact (c5_budget_enforcement hashId ud0 sendOk cfgM1).1 1 [siteAB_h] rfl
      (by decide) (fun _ => rfl)
      (fun s hs => by
        rw [List.mem_singleton] at hs
        subst hs
        exact ⟨by decide, [itemA, itemB], rfl⟩)
  · exact (c5_budget_enforcement hashId ud0 sendOk cfgUnl).2 [siteAB_h] rfl rfl
      (fun _ => rfl)
      (fun s hs => by
        rw [List.mem_singleton] at hs
        subst hs
        exact ⟨by decide, [itemA, itemB], rfl⟩)

/-- Witness for C8: an always-failing transport, a first site with a new
item and history followed by a fresh second site; the session aborts with
nothing persisted anywhere and no counter increment. -/
theorem c8_transport_failure_aborts_session_witness :
    ∃ out, pollWebsites hashId ud0 sendFail cfgUnl (siteA_h :: [siteFresh])
        sess0 =
      { outcomes := out :: [siteFresh].map untouchedOutcome, session := sess0,
          aborted := true } ∧
      out.storeWritten = false ∧ out.storedHashes = siteA_h.storedHashes :=
  c8_transport_failure_aborts_session hashId ud0 sendFail cfgUnl siteA_h
    [siteFresh] sess0 [itemA] (fun _ => rfl) rfl rfl rfl (by decide)
    ⟨itemA, by decide, by decide⟩

/-- Counterexample to C8 as stated: with a transport that fails, the
session aborts after the first failed dispatch — the second source is
never processed or persisted (its outcome is the untouched input) —
whereas the same two-site session with a working transport completes and
persists both sources. The failed dispatch does not increment the
counter, but the session is not continued. -/
theorem c8_counterexample :
    (pollWebsites hashId ud0 sendFail cfgUnl sitesPair sess0).aborted = true ∧
      (pollWebsites hashId ud0 sendFail cfgUnl sitesPair sess0).outcomes =
        [outAbort, untouchedOutcome siteFresh] ∧
      (untouchedOutcome siteFresh).storeWritten = false ∧
      (pollWebsites hashId ud0 sendFail cfgUnl sitesPair sess0).session =
        sess0 ∧
      (pollWebsites hashId ud0 sendOk cfgUnl sitesPair sess0).aborted = false ∧
      (pollWebsites hashId ud0 sendOk cfgUnl sitesPair sess0).outcomes =
        [outA_first, outA_first] := by
  decide

end MWC
